import Mathlib

/-!
Verification of the core behaviors of the TechExpand/ecommerce backend:
the discount resolver (`catalog/models.py`, `catalog/serializers.py`),
the OTP session manager (`accounts/models.py`, `accounts/views.py`),
and the invitation manager (`accounts/models.py`, `accounts/serializers.py`).

Modelling conventions:
- Exact decimal arithmetic (Python `Decimal`) is embedded as `ℚ`.
- Timestamps are integers counting seconds; 10 minutes = 600 s, 3 days = 259200 s.
- `Decimal.quantize(Decimal('0.01'), rounding=ROUND_HALF_UP)` is `roundHalfUp2`:
  round to a multiple of 1/100, ties away from zero.
- Randomness (`randint`, `uuid4`) is embedded by passing the random draw or the
  fresh identifier as an explicit argument.
- Python `None` is `Option.none`; `str(None)` is the string it renders to.
-/

/-! ## Discount resolver (src/catalog/models.py) -/

inductive DiscountType : Type
  | percent
  | fixed
deriving DecidableEq, Repr

/-- One row of the `Discount` model: type, value, optional activity window,
active flag (the `product` and `created_by` foreign keys play no role in
price resolution beyond selecting the rule set). -/
structure Discount : Type where
  discount_type : DiscountType
  value : ℚ
  start_at : Option ℤ
  end_at : Option ℤ
  active : Bool
deriving DecidableEq, Repr

/-- The queryset filter in `Product.get_final_price`:
`active=True` and `(start_at ≤ now or start_at is null)` and
`(end_at ≥ now or end_at is null)`. -/
def Discount.survives (d : Discount) (now : ℤ) : Bool :=
  d.active
    && (match d.start_at with
        | none => true
        | some s => decide (s ≤ now))
    && (match d.end_at with
        | none => true
        | some e => decide (e ≥ now))

/-- The candidate absolute discount amount computed in the loop body of
`get_final_price`: percent → `price * value / 100`, fixed → `value`. -/
def Discount.amount (d : Discount) (price : ℚ) : ℚ :=
  match d.discount_type with
  | DiscountType.percent => price * d.value / 100
  | DiscountType.fixed => d.value

/-- `Decimal.quantize(Decimal('0.01'), rounding=ROUND_HALF_UP)`: round to a
multiple of 1/100, ties away from zero. -/
def roundHalfUp2 (x : ℚ) : ℚ :=
  if 0 ≤ x then ((⌊x * 100 + 1/2⌋ : ℤ) : ℚ) / 100
  else -(((⌊-x * 100 + 1/2⌋ : ℤ) : ℚ) / 100)

/-- The accumulation loop of `get_final_price`: `best = max(best, amount)`
over a list of discounts, threading the running best. -/
def bestFold (price : ℚ) (b : ℚ) (ds : List Discount) : ℚ :=
  ds.foldl (fun best d => max best (d.amount price)) b

/-- `Product.get_final_price` (src/catalog/models.py:31-53): filter the
discounts, take the best single amount starting from `Decimal('0')`,
subtract, quantize to 2 places half-up, clamp at 0. -/
def get_final_price (price : ℚ) (ds : List Discount) (now : ℤ) : ℚ :=
  let best := bestFold price 0 (ds.filter (fun d => d.survives now))
  max (roundHalfUp2 (price - best)) 0

/-- Spec-side restatement of the eligibility filter, written from the spec's
words: `active=true` AND (`start_at` null OR `start_at ≤ now`) AND (`end_at`
null OR `end_at ≥ now`). -/
def spec_eligible (d : Discount) (now : ℤ) : Prop :=
  d.active = true
    ∧ (d.start_at = none ∨ ∃ s, d.start_at = some s ∧ s ≤ now)
    ∧ (d.end_at = none ∨ ∃ e, d.end_at = some e ∧ e ≥ now)

instance (d : Discount) (now : ℤ) : Decidable (spec_eligible d now) := by
  unfold spec_eligible
  infer_instance

/-- Spec-side best amount: the maximum candidate across surviving rules,
`0` when no rule survives. -/
def spec_best (price : ℚ) (ds : List Discount) (now : ℤ) : ℚ :=
  match (ds.filter (fun d => decide (spec_eligible d now))).map
      (fun d => d.amount price) with
  | [] => 0
  | c :: cs => cs.foldl max c

/-- Spec-side final price: `max(base_price − best_amount, 0)`, quantized to
2 decimal places with round-half-up applied once at the end. -/
def spec_final_price (price : ℚ) (ds : List Discount) (now : ℤ) : ℚ :=
  roundHalfUp2 (max (price - spec_best price ds now) 0)

/-! ## Discount validation (src/catalog/serializers.py:27-35) -/

/-- The writable fields seen by `DiscountSerializer.validate`. -/
structure DiscountInput : Type where
  discount_type : DiscountType
  value : ℚ
  start_at : Option ℤ
  end_at : Option ℤ
deriving DecidableEq, Repr

/-- `DiscountSerializer.validate`: reject a percent discount with value
over 100; reject, when both bounds are given, `end_at < start_at`.
Returns `true` when the data is accepted. -/
def discount_validate (d : DiscountInput) : Bool :=
  if d.discount_type = DiscountType.percent && decide (d.value > 100) then
    false
  else
    match d.start_at, d.end_at with
    | some s, some e => !(decide (e < s))
    | _, _ => true

/-! ## OTP session manager (src/accounts/models.py, src/accounts/views.py) -/

/-- Python renders `str(None)` as the four-character string. -/
def pyNoneStr : String :=
  "None"

/-- What `str(x)` renders an optional reference identifier to: `str(None)`
is `pyNoneStr`; `str` of a UUID (already held as its canonical string here)
is itself. -/
def strOfRef : Option String → String
  | none => pyNoneStr
  | some s => s

/-- The fields of the custom `User` model that the OTP lifecycle touches. -/
structure UserState : Type where
  is_active : Bool
  otp_code : Option String
  otp_reference_id : Option String
  otp_created_at : Option ℤ
deriving DecidableEq, Repr

/-- Result vocabulary of `User.verify_otp`, keyed by the message returned:
`sessionMismatch` = (False, "Invalid or expired OTP session"),
`codeMismatch` = (False, "Invalid OTP"), `expired` = (False, "OTP expired"),
`verified` = (True, "Verified"). -/
inductive VerifyOutcome : Type
  | sessionMismatch
  | codeMismatch
  | expired
  | verified
deriving DecidableEq, Repr

/-- `User.verify_otp` (src/accounts/models.py:46-54): reference check, then
code check, then — only when `otp_created_at` is set — the 10-minute expiry
check. -/
def verify_otp (u : UserState) (otp reference_id : String) (now : ℤ) :
    VerifyOutcome :=
  if strOfRef u.otp_reference_id ≠ reference_id then .sessionMismatch
  else if u.otp_code ≠ some otp then .codeMismatch
  else
    match u.otp_created_at with
    | some t => if now > t + 600 then .expired else .verified
    | none => .verified

/-- The value `randint(100000, 999999)` can produce, as a function of the
random draw: exactly the integers from 100000 to 999999. -/
def randint_100000_999999 (r : ℕ) : ℕ :=
  100000 + r % 900000

/-- `User.generate_otp` (src/accounts/models.py:36-44): store
`str(randint(100000, 999999))` as the code, a fresh identifier as the
reference, the current time as `otp_created_at`, and return the
`(reference_id, code)` pair. The random draw `r` and the fresh identifier
`ref` are passed in explicitly. -/
def generate_otp (u : UserState) (r : ℕ) (ref : String) (now : ℤ) :
    UserState × (String × String) :=
  let code := toString (randint_100000_999999 r)
  ({ u with
      otp_code := some code
      otp_reference_id := some ref
      otp_created_at := some now },
   (ref, code))

/-- `VerifyOTPView.post` (src/accounts/views.py:74-100), after the user
lookup: run `verify_otp`; on success set `is_active` and clear all three
OTP fields in one update; on failure leave the state untouched. -/
def verify_otp_view (u : UserState) (otp reference_id : String) (now : ℤ) :
    VerifyOutcome × UserState :=
  match verify_otp u otp reference_id now with
  | .verified =>
      (.verified,
       { u with
          is_active := true
          otp_code := none
          otp_reference_id := none
          otp_created_at := none })
  | o => (o, u)

/-- `RegisterSerializer.create` (src/accounts/serializers.py:31-49), as far
as OTP state goes: the account starts inactive with an OTP code stored but
no reference identifier and no issued-at timestamp. -/
def register_create (code : String) : UserState :=
  { is_active := false
    otp_code := some code
    otp_reference_id := none
    otp_created_at := none }

/-- The draw domain of `get_random_string(6, allowed_chars="0123456789")`:
exactly the length-6 strings of ASCII digits, leading zeros included. -/
def isSixDigitString (s : String) : Prop :=
  s.length = 6 ∧ ∀ c ∈ s.data, c.isDigit = true

instance (s : String) : Decidable (isSixDigitString s) := by
  unfold isSixDigitString
  infer_instance

/-- `ResendOTPView.post` (src/accounts/views.py:106-144), after the user
lookup: draw `get_random_string(6, allowed_chars="0123456789")` — the
drawn 6-digit string `code` is passed in explicitly — plus a fresh
reference identifier, store both with the current timestamp onto the
account (overwriting any prior session), and answer with the reference. -/
def resend_otp_view (u : UserState) (code ref : String) (now : ℤ) :
    UserState × String :=
  ({ u with
      otp_code := some code
      otp_reference_id := some ref
      otp_created_at := some now },
   ref)

/-- A 6-digit code with a leading zero, producible by `get_random_string`
over the digit alphabet but not by `randint(100000, 999999)`. -/
def leadingZeroCode : String :=
  "012345"

/-! ## Invitation manager (src/accounts/models.py, src/accounts/serializers.py) -/

/-- The `Invitation` model fields the acceptance flow reads. -/
structure Invitation : Type where
  email : String
  token : String
  is_used : Bool
  expires_at : ℤ
deriving DecidableEq, Repr

/-- `Invitation.is_valid` (src/accounts/models.py:78-79):
`not is_used and expires_at > now`. -/
def Invitation.is_valid (inv : Invitation) (now : ℤ) : Bool :=
  !inv.is_used && decide (inv.expires_at > now)

/-- `Invitation.mark_used` applied through the token lookup: set `is_used`
on the row whose token matches. -/
def markUsedByToken (tok : String) (invs : List Invitation) :
    List Invitation :=
  invs.map (fun i => if i.token = tok then { i with is_used := true } else i)

inductive AcceptResult : Type
  | invalidToken
  | expiredOrUsed
  | accepted
deriving DecidableEq, Repr

/-- The invitation table plus the number of accounts, the two pieces of
state `AcceptAdminInviteSerializer` touches. -/
structure InviteDB : Type where
  invitations : List Invitation
  accounts : ℕ
deriving DecidableEq, Repr

/-- `AcceptAdminInviteSerializer` (src/accounts/serializers.py:89-121):
look the invitation up by token (`DoesNotExist` → invalid token), reject
when `is_valid()` is false, otherwise create the admin account, mark the
invitation used, and return success. -/
def accept_invite (db : InviteDB) (tok : String) (now : ℤ) :
    AcceptResult × InviteDB :=
  match db.invitations.find? (fun i => i.token == tok) with
  | none => (.invalidToken, db)
  | some inv =>
      if inv.is_valid now then
        (.accepted,
         { invitations := markUsedByToken tok db.invitations
           accounts := db.accounts + 1 })
      else (.expiredOrUsed, db)

/-! ## Admin invitation issuance (src/accounts/serializers.py:52-83,
src/accounts/permissions.py, src/accounts/views.py:245-251) -/

/-- The request-user attributes the invite path inspects. -/
structure Actor : Type where
  is_authenticated : Bool
  is_superuser : Bool
deriving DecidableEq, Repr

/-- `IsSuperAdmin.has_permission` (src/accounts/permissions.py:8-13): the
view-level gate. -/
def has_permission (u : Actor) : Bool :=
  u.is_authenticated && u.is_superuser

/-- `AdminInviteSerializer` (src/accounts/serializers.py:52-83): `validate`
raises unless `request.user.is_superuser`; `create` then builds the
invitation with a fresh token and the default 3-day expiry
(`default_expires_at`, src/accounts/models.py:62-63). `none` models the
raised `ValidationError`. -/
def admin_invite_serializer (u : Actor) (email tok : String) (now : ℤ) :
    Option Invitation :=
  if u.is_superuser then
    some { email := email, token := tok, is_used := false,
           expires_at := now + 259200 }
  else none

inductive InviteOutcome : Type
  | forbidden
  | created (inv : Invitation)
deriving DecidableEq, Repr

/-- `AdminInviteView` (src/accounts/views.py:245-251): the permission class
runs first and maps a failure to 403 Forbidden; only then does the
serializer run, whose own rejection also denies the request. -/
def admin_invite_endpoint (u : Actor) (email tok : String) (now : ℤ) :
    InviteOutcome :=
  if !(has_permission u) then .forbidden
  else
    match admin_invite_serializer u email tok now with
    | none => .forbidden
    | some inv => .created inv

/-! ## Auxiliary predicates and concrete fixtures -/

/-- The window invariant as the spec states it would have to hold of an
accepted discount, weakened to the boundary the code actually enforces:
when both bounds are present, `start_at ≤ end_at`. -/
def window_ok (d : DiscountInput) : Prop :=
  match d.start_at, d.end_at with
  | some s, some e => s ≤ e
  | _, _ => True

instance (d : DiscountInput) : Decidable (window_ok d) := by
  unfold window_ok
  rcases d.start_at with _ | s <;> rcases d.end_at with _ | e <;>
    simp <;> infer_instance

/-- The state `VerifyOTPView.post` leaves behind on success: active, all
three OTP fields cleared. -/
def activated_user : UserState :=
  { is_active := true
    otp_code := none
    otp_reference_id := none
    otp_created_at := none }

/-- Fixture: the two unconditional discounts of spec Scenario 3 (percent 10
and fixed 150). -/
def scenario3 : List Discount :=
  [{ discount_type := DiscountType.percent, value := 10, start_at := none,
     end_at := none, active := true },
   { discount_type := DiscountType.fixed, value := 150, start_at := none,
     end_at := none, active := true }]

def fixture_fixed150 : Discount :=
  { discount_type := DiscountType.fixed, value := 150, start_at := none,
    end_at := none, active := true }

def fixture_percent10 : Discount :=
  { discount_type := DiscountType.percent, value := 10, start_at := none,
    end_at := none, active := true }

def emailA : String :=
  "invitee@example.com"

def tokA : String :=
  "tok-1"

def refA : String :=
  "ref-1"

def codeA : String :=
  "111111"

def codeB : String :=
  "222222"

def codeW : String :=
  "100000"

/-- Fixture: a fresh user with no OTP session. -/
def userBlank : UserState :=
  { is_active := false
    otp_code := none
    otp_reference_id := none
    otp_created_at := none }

/-- Fixture: a user holding a full OTP session issued at time 0. -/
def userSession0 : UserState :=
  { is_active := false
    otp_code := some codeA
    otp_reference_id := some refA
    otp_created_at := some 0 }

/-- Fixture: one unused invitation with token `tokA` expiring at time 100,
and no accounts yet. -/
def inviteDB0 : InviteDB :=
  { invitations := [{ email := emailA, token := tokA, is_used := false,
                      expires_at := 100 }]
    accounts := 0 }

/-- Fixture: `inviteDB0` after a successful acceptance. -/
def inviteDB1 : InviteDB :=
  { invitations := [{ email := emailA, token := tokA, is_used := true,
                      expires_at := 100 }]
    accounts := 1 }

/-- Fixture: the equal-bounds discount input accepted by the serializer. -/
def equalBoundsInput : DiscountInput :=
  { discount_type := DiscountType.fixed, value := 0, start_at := some 0,
    end_at := some 0 }

/-- Fixture: an authenticated, non-superuser actor. -/
def actorPlain : Actor :=
  { is_authenticated := true, is_superuser := false }

/-! ## Helper lemmas: rounding -/

theorem roundHalfUp2_zero : roundHalfUp2 0 = 0 := by
  norm_num [roundHalfUp2]

theorem roundHalfUp2_nonneg (x : ℚ) (hx : 0 ≤ x) : 0 ≤ roundHalfUp2 x := by
  rw [roundHalfUp2, if_pos hx]
  have h : (0 : ℤ) ≤ ⌊x * 100 + 1/2⌋ := by
    rw [Int.le_floor]
    push_cast
    linarith
  positivity

theorem roundHalfUp2_nonpos (x : ℚ) (hx : x ≤ 0) : roundHalfUp2 x ≤ 0 := by
  rw [roundHalfUp2]
  split
  · have hx0 : x = 0 := le_antisymm hx (by assumption)
    subst hx0
    norm_num
  · have h : (0 : ℤ) ≤ ⌊-x * 100 + 1/2⌋ := by
      rw [Int.le_floor]
      push_cast
      linarith
    have h100 : (0 : ℚ) ≤ ((⌊-x * 100 + 1/2⌋ : ℤ) : ℚ) / 100 := by positivity
    linarith

theorem roundHalfUp2_mono {x y : ℚ} (h : x ≤ y) :
    roundHalfUp2 x ≤ roundHalfUp2 y := by
  by_cases hx : 0 ≤ x
  · have hy : 0 ≤ y := le_trans hx h
    rw [roundHalfUp2, if_pos hx, roundHalfUp2, if_pos hy]
    have hf : ⌊x * 100 + 1/2⌋ ≤ ⌊y * 100 + 1/2⌋ :=
      Int.floor_le_floor (by linarith)
    have hc : ((⌊x * 100 + 1/2⌋ : ℤ) : ℚ) ≤ ((⌊y * 100 + 1/2⌋ : ℤ) : ℚ) := by
      exact_mod_cast hf
    linarith
  · by_cases hy : 0 ≤ y
    · exact le_trans (roundHalfUp2_nonpos x (le_of_not_le hx))
        (roundHalfUp2_nonneg y hy)
    · rw [roundHalfUp2, if_neg hx, roundHalfUp2, if_neg hy]
      have hf : ⌊-y * 100 + 1/2⌋ ≤ ⌊-x * 100 + 1/2⌋ :=
        Int.floor_le_floor (by linarith)
      have hc : ((⌊-y * 100 + 1/2⌋ : ℤ) : ℚ) ≤ ((⌊-x * 100 + 1/2⌋ : ℤ) : ℚ) := by
        exact_mod_cast hf
      linarith

/-- Round-half-up to cents fixes any value that is already a whole number
of cents. -/
theorem roundHalfUp2_cent (n : ℤ) :
    roundHalfUp2 ((n : ℚ) / 100) = (n : ℚ) / 100 := by
  have harg : (n : ℚ) / 100 * 100 + 1/2 = (n : ℚ) + 1/2 := by
    field_simp
  have hfloor : ⌊(n : ℚ) + 1/2⌋ = n := by
    rw [add_comm, Int.floor_add_int]
    norm_num
  rw [roundHalfUp2]
  split
  · rw [harg, hfloor]
  · have hneg : -((n : ℚ) / 100) * 100 + 1/2 = ((-n : ℤ) : ℚ) + 1/2 := by
      push_cast
      field_simp
      ring
    have hfloor2 : ⌊-((n : ℚ) / 100) * 100 + 1/2⌋ = -n := by
      rw [hneg, add_comm, Int.floor_add_int]
      norm_num
    rw [hfloor2]
    push_cast
    ring

/-- Clamping at zero commutes with the final rounding step: the code rounds
then clamps, the spec clamps then rounds, and both give the same value. -/
theorem max_roundHalfUp2_zero (x : ℚ) :
    max (roundHalfUp2 x) 0 = roundHalfUp2 (max x 0) := by
  by_cases hx : 0 ≤ x
  · rw [max_eq_left hx, max_eq_left (roundHalfUp2_nonneg x hx)]
  · have hx' : x ≤ 0 := le_of_not_le hx
    rw [max_eq_right hx', max_eq_right (roundHalfUp2_nonpos x hx'),
      roundHalfUp2_zero]

/-! ## Helper lemmas: the best-discount fold -/

theorem bestFold_nil (price b : ℚ) : bestFold price b [] = b := rfl

theorem bestFold_cons (price b : ℚ) (d : Discount) (ds : List Discount) :
    bestFold price b (d :: ds) = bestFold price (max b (d.amount price)) ds :=
  rfl

theorem bestFold_append (price b : ℚ) (l r : List Discount) :
    bestFold price b (l ++ r) = bestFold price (bestFold price b l) r := by
  unfold bestFold
  exact List.foldl_append _ _ _ _

theorem le_bestFold (price b : ℚ) (ds : List Discount) :
    b ≤ bestFold price b ds := by
  induction ds generalizing b with
  | nil => exact le_refl b
  | cons d tl ih =>
      rw [bestFold_cons]
      exact le_trans (le_max_left b (d.amount price)) (ih _)

theorem bestFold_mono_init (price : ℚ) (ds : List Discount) {b b' : ℚ}
    (h : b ≤ b') : bestFold price b ds ≤ bestFold price b' ds := by
  induction ds generalizing b b' with
  | nil => exact h
  | cons d tl ih =>
      rw [bestFold_cons, bestFold_cons]
      exact ih (max_le_max h (le_refl _))

theorem bestFold_eq_foldl_max (price b : ℚ) (ds : List Discount) :
    bestFold price b ds = (ds.map (fun d => d.amount price)).foldl max b := by
  unfold bestFold
  rw [List.foldl_map]

/-! ## Helper lemmas: eligibility and amounts -/

theorem survives_iff_spec_eligible (d : Discount) (now : ℤ) :
    d.survives now = decide (spec_eligible d now) := by
  rcases d with ⟨ty, v, st, en, act⟩
  rcases act with _ | _ <;> rcases st with _ | s <;> rcases en with _ | e <;>
    simp only [Discount.survives, spec_eligible] <;>
    simp [Bool.and_assoc, decide_eq_true_eq, And.comm, Bool.and_comm]

theorem amount_nonneg (d : Discount) (price : ℚ) (hp : 0 ≤ price)
    (hv : 0 ≤ d.value) : 0 ≤ d.amount price := by
  rcases d with ⟨ty, v, st, en, act⟩
  rcases ty with _ | _
  · simp only [Discount.amount]
    positivity
  · exact hv

theorem amount_mono_value (d : Discount) (price : ℚ) {v v' : ℚ}
    (hp : 0 ≤ price) (h : v ≤ v') :
    ({ d with value := v } : Discount).amount price ≤
      ({ d with value := v' } : Discount).amount price := by
  rcases d with ⟨ty, w, st, en, act⟩
  rcases ty with _ | _
  · simp only [Discount.amount]
    have : price * v ≤ price * v' := mul_le_mul_of_nonneg_left h hp
    linarith
  · exact h

theorem survives_set_value (d : Discount) (v : ℚ) (now : ℤ) :
    ({ d with value := v } : Discount).survives now = d.survives now := rfl

theorem filter_survives_eq_spec (ds : List Discount) (now : ℤ) :
    ds.filter (fun d => d.survives now) =
      ds.filter (fun d => decide (spec_eligible d now)) := by
  apply List.filter_congr
  intro d _
  exact survives_iff_spec_eligible d now

theorem bestFold_eq_spec_best (price : ℚ) (ds : List Discount) (now : ℤ)
    (hp : 0 ≤ price) (hv : ∀ d ∈ ds, 0 ≤ d.value) :
    bestFold price 0 (ds.filter (fun d => d.survives now)) =
      spec_best price ds now := by
  rw [filter_survives_eq_spec, bestFold_eq_foldl_max]
  unfold spec_best
  cases hL : (ds.filter (fun d => decide (spec_eligible d now))).map
      (fun d => d.amount price) with
  | nil => rfl
  | cons c cs =>
      have hmem : c ∈ (ds.filter (fun d => decide (spec_eligible d now))).map
          (fun d => d.amount price) := by
        rw [hL]
        exact List.mem_cons_self _ _
      obtain ⟨d, hd, rfl⟩ := List.mem_map.mp hmem
      have hc : 0 ≤ d.amount price :=
        amount_nonneg d price hp (hv d (List.mem_of_mem_filter hd))
      rw [List.foldl_cons, max_eq_right hc]

/-- Scenario 3 of the spec: base price 1000, an unconditional percent-10
and an unconditional fixed-150 discount; the single best discount wins. -/
example : get_final_price 1000 scenario3 0 = 850 := by
  norm_num [get_final_price, bestFold, scenario3, Discount.survives,
    Discount.amount, List.filter, List.foldl, roundHalfUp2]

/-- C1: for every product with base price p (non-negative, as the model's
`MinValueValidator(0)` enforces), every set of discount rules with
non-negative values, and every instant now, `get_final_price` keeps exactly
the rules with `active=true` and an open or satisfied window, computes
`p * value / 100` for percent rules and `value` for fixed rules, takes the
maximum candidate (0 when none survives), and returns
`max(p − best, 0)` quantized once at the end to 2 decimal places with
round-half-up — i.e. it coincides with the spec-side resolver. -/
theorem get_final_price_correct (price : ℚ) (ds : List Discount) (now : ℤ)
    (hp : 0 ≤ price) (hv : ∀ d ∈ ds, 0 ≤ d.value) :
    get_final_price price ds now = spec_final_price price ds now := by
  show max (roundHalfUp2 (price -
      bestFold price 0 (ds.filter (fun d => d.survives now)))) 0 =
    spec_final_price price ds now
  rw [bestFold_eq_spec_best price ds now hp hv]
  exact max_roundHalfUp2_zero _

theorem get_final_price_correct_witness :
    (0 : ℚ) ≤ 1000 ∧ (∀ d ∈ scenario3, (0 : ℚ) ≤ d.value) ∧
      get_final_price 1000 scenario3 0 = spec_final_price 1000 scenario3 0 :=
  ⟨by norm_num, by decide,
    get_final_price_correct 1000 scenario3 0 (by norm_num) (by decide)⟩

/-- C6: for every non-negative base price stored with 2 decimal places and
every rule set, the final price is never negative and never exceeds the
base price; and raising the value of any single rule (everything else
fixed) never raises the final price. -/
theorem get_final_price_bounds_monotone (price v' : ℚ) (d : Discount)
    (l r ds : List Discount) (now : ℤ)
    (hp : 0 ≤ price) (hcent : ∃ n : ℤ, price = (n : ℚ) / 100)
    (hv : d.value ≤ v') :
    0 ≤ get_final_price price ds now ∧
    get_final_price price ds now ≤ price ∧
    get_final_price price (l ++ { d with value := v' } :: r) now ≤
      get_final_price price (l ++ d :: r) now := by
  refine ⟨le_max_right _ 0, ?_, ?_⟩
  · have hbest : 0 ≤ bestFold price 0 (ds.filter (fun x => x.survives now)) :=
      le_bestFold _ _ _
    have hround : roundHalfUp2 (price -
        bestFold price 0 (ds.filter (fun x => x.survives now))) ≤
          roundHalfUp2 price :=
      roundHalfUp2_mono (by linarith)
    obtain ⟨n, rfl⟩ := hcent
    exact max_le (le_trans hround (le_of_eq (roundHalfUp2_cent n))) hp
  · cases hs : d.survives now with
    | false =>
        have hfe : (l ++ ({ d with value := v' } : Discount) :: r).filter
            (fun x => x.survives now) =
              (l ++ d :: r).filter (fun x => x.survives now) := by
          rw [List.filter_append, List.filter_append, List.filter_cons,
            List.filter_cons, survives_set_value, hs]
          simp
        show max (roundHalfUp2 (price - bestFold price 0
            ((l ++ ({ d with value := v' } : Discount) :: r).filter
              (fun x => x.survives now)))) 0 ≤
          max (roundHalfUp2 (price - bestFold price 0
            ((l ++ d :: r).filter (fun x => x.survives now)))) 0
        rw [hfe]
    | true =>
        have hfd : (l ++ d :: r).filter (fun x => x.survives now) =
            l.filter (fun x => x.survives now) ++
              d :: r.filter (fun x => x.survives now) := by
          rw [List.filter_append, List.filter_cons, hs]
          simp
        have hfdv : (l ++ ({ d with value := v' } : Discount) :: r).filter
            (fun x => x.survives now) =
              l.filter (fun x => x.survives now) ++
                ({ d with value := v' } : Discount) ::
                  r.filter (fun x => x.survives now) := by
          rw [List.filter_append, List.filter_cons, survives_set_value, hs]
          simp
        have hamount : ({ d with value := d.value } : Discount).amount price ≤
            ({ d with value := v' } : Discount).amount price :=
          amount_mono_value d price hp hv
        have hb : bestFold price 0 ((l ++ d :: r).filter
            (fun x => x.survives now)) ≤
              bestFold price 0 ((l ++ ({ d with value := v' } : Discount) ::
                r).filter (fun x => x.survives now)) := by
          rw [hfd, hfdv, bestFold_append, bestFold_append, bestFold_cons,
            bestFold_cons]
          exact bestFold_mono_init _ _ (max_le_max (le_refl _) hamount)
        exact max_le_max (roundHalfUp2_mono (by linarith)) (le_refl _)

theorem get_final_price_bounds_monotone_witness :
    0 ≤ get_final_price 1000 ([] ++ fixture_fixed150 :: [fixture_percent10]) 0 ∧
    get_final_price 1000 ([] ++ fixture_fixed150 :: [fixture_percent10]) 0 ≤ 1000 ∧
    get_final_price 1000
        ([] ++ ({ fixture_fixed150 with value := 200 } : Discount) ::
          [fixture_percent10]) 0 ≤
      get_final_price 1000 ([] ++ fixture_fixed150 :: [fixture_percent10]) 0 := by
  have h := get_final_price_bounds_monotone 1000 200 fixture_fixed150 []
    [fixture_percent10] ([] ++ fixture_fixed150 :: [fixture_percent10]) 0
    (by norm_num) ⟨100000, by norm_num⟩ (by norm_num [fixture_fixed150])
  exact h

/-- C4: for every invitation and every instant `now`, `is_valid` returns
true if and only if the invitation is not used and `now` is strictly
before `expires_at`. -/
theorem invitation_is_valid_iff (inv : Invitation) (now : ℤ) :
    inv.is_valid now = true ↔
      (inv.is_used = false ∧ now < inv.expires_at) := by
  simp [Invitation.is_valid, gt_iff_lt]

/-- C9 counterexample: the serializer accepts a discount whose window has
`end_at = start_at` (here both 0), although the claim requires
`end_at > start_at`; so the claim fails on this input. -/
theorem discount_validate_equal_bounds_accepted :
    discount_validate equalBoundsInput = true ∧ ¬ ((0 : ℤ) < 0) := by
  constructor
  · norm_num [discount_validate, equalBoundsInput]
  · omega

/-- C9 amended: the serializer rejects a percent discount with value over
100, and, when both window bounds are present, rejects exactly the windows
with `end_at < start_at` — so a window with `end_at = start_at` is
accepted, and acceptance is equivalent to `start_at ≤ end_at`. -/
theorem discount_validate_iff (d : DiscountInput) :
    discount_validate d = true ↔
      ((d.discount_type = DiscountType.fixed ∨ d.value ≤ 100) ∧
        window_ok d) := by
  rcases d with ⟨ty, v, st, en⟩
  rcases ty with _ | _ <;> rcases st with _ | s <;> rcases en with _ | e <;>
    by_cases hv : v > 100 <;>
      simp [discount_validate, window_ok, hv, Int.not_lt, le_of_not_lt,
        not_le.mpr]

/-- C2 counterexample: a session issued at time 0, verified at time 700
(beyond the 600-second window) with the correct reference but a wrong
code, is rejected with CodeMismatch, not Expired — the outcome after
expiry is not Expired regardless of code correctness. -/
theorem verify_otp_expired_wrong_code :
    (700 : ℤ) > 0 + 600 ∧
    verify_otp userSession0 codeB refA 700 = VerifyOutcome.codeMismatch ∧
    VerifyOutcome.codeMismatch ≠ VerifyOutcome.expired := by
  refine ⟨by norm_num, ?_, by decide⟩
  decide

/-- C2 amended: a `verify` call made strictly after `issued_at + 10
minutes` whose submitted reference and code both match the stored session
is rejected with Expired (the reference and code checks run first, so a
mismatching call is rejected with SessionMismatch/CodeMismatch instead). -/
theorem verify_otp_expired_when_matching (u : UserState) (otp ref : String)
    (now t : ℤ) (hts : u.otp_created_at = some t) (hnow : now > t + 600)
    (href : strOfRef u.otp_reference_id = ref)
    (hcode : u.otp_code = some otp) :
    verify_otp u otp ref now = VerifyOutcome.expired := by
  simp [verify_otp, href, hcode, hts, hnow]

theorem verify_otp_expired_when_matching_witness :
    userSession0.otp_created_at = some 0 ∧ (700 : ℤ) > 0 + 600 ∧
    strOfRef userSession0.otp_reference_id = refA ∧
    userSession0.otp_code = some codeA ∧
    verify_otp userSession0 codeA refA 700 = VerifyOutcome.expired :=
  ⟨rfl, by norm_num, rfl, rfl,
    verify_otp_expired_when_matching userSession0 codeA refA 700 0 rfl
      (by norm_num) rfl rfl⟩

/-- C10: when `otp_created_at` is null while the code and reference are
populated, `verify_otp` with the matching code and reference succeeds at
any instant whatsoever — the expiry branch is guarded by the timestamp —
and registration (`register_create`) stores an OTP code while leaving both
the reference and the timestamp unset. -/
theorem verify_otp_no_timestamp_never_expires (u : UserState)
    (code ref c : String) (now : ℤ)
    (hcode : u.otp_code = some code) (href : u.otp_reference_id = some ref)
    (hts : u.otp_created_at = none) :
    verify_otp u code ref now = VerifyOutcome.verified ∧
    (register_create c).otp_code = some c ∧
    (register_create c).otp_reference_id = none ∧
    (register_create c).otp_created_at = none := by
  refine ⟨?_, rfl, rfl, rfl⟩
  simp [verify_otp, href, hcode, hts, strOfRef]

theorem verify_otp_no_timestamp_never_expires_witness :
    ({ is_active := false, otp_code := some codeA,
       otp_reference_id := some refA,
       otp_created_at := none } : UserState).otp_code = some codeA ∧
    verify_otp
      ({ is_active := false, otp_code := some codeA,
         otp_reference_id := some refA,
         otp_created_at := none } : UserState)
      codeA refA 1000000 = VerifyOutcome.verified :=
  ⟨rfl,
    (verify_otp_no_timestamp_never_expires
      ({ is_active := false, otp_code := some codeA,
         otp_reference_id := some refA, otp_created_at := none } : UserState)
      codeA refA codeA 1000000 rfl rfl rfl).1⟩

/-- C8 counterexample: the claim says every 6-digit code, leading zeros
included, is attainable; but no random draw makes `randint(100000, 999999)`
produce 12345 (the value that would print as the leading-zero code
012345) — every draw is at least 100000. -/
theorem generate_otp_no_leading_zero :
    (∃ r : ℕ, randint_100000_999999 r = 12345) = False := by
  apply eq_false
  rintro ⟨r, h⟩
  unfold randint_100000_999999 at h
  omega

/-- C8 amended: both code paths the claim cites persist the fresh code and
fresh reference together with the current timestamp, overwriting any prior
session, and hand the values back; but their code alphabets differ.
`User.generate_otp` draws an integer between 100000 and 999999 and stores
its decimal rendering, so on that path the 6-digit code never starts with
a zero; `ResendOTPView.post` draws any 6-digit string (the draw `code`
ranges over `isSixDigitString`), so there leading-zero codes such as
012345 remain possible. -/
theorem generate_otp_behavior (u v : UserState) (r : ℕ)
    (code ref ref2 : String) (now now2 : ℤ)
    (hcode : isSixDigitString code) :
    100000 ≤ randint_100000_999999 r ∧
    randint_100000_999999 r ≤ 999999 ∧
    (generate_otp u r ref now).2 =
      (ref, toString (randint_100000_999999 r)) ∧
    (generate_otp u r ref now).1.otp_code =
      some (toString (randint_100000_999999 r)) ∧
    (generate_otp u r ref now).1.otp_reference_id = some ref ∧
    (generate_otp u r ref now).1.otp_created_at = some now ∧
    (generate_otp u r ref now).1.is_active = u.is_active ∧
    (resend_otp_view v code ref2 now2).1.otp_code = some code ∧
    (resend_otp_view v code ref2 now2).1.otp_reference_id = some ref2 ∧
    (resend_otp_view v code ref2 now2).1.otp_created_at = some now2 ∧
    (resend_otp_view v code ref2 now2).1.is_active = v.is_active ∧
    (resend_otp_view v code ref2 now2).2 = ref2 := by
  refine ⟨?_, ?_, rfl, rfl, rfl, rfl, rfl, rfl, rfl, rfl, rfl, rfl⟩
  · unfold randint_100000_999999
    omega
  · unfold randint_100000_999999
    omega

theorem generate_otp_behavior_witness :
    isSixDigitString leadingZeroCode ∧
    (100000 ≤ randint_100000_999999 7 ∧
    randint_100000_999999 7 ≤ 999999 ∧
    (generate_otp userBlank 7 refA 0).2 =
      (refA, toString (randint_100000_999999 7)) ∧
    (generate_otp userBlank 7 refA 0).1.otp_code =
      some (toString (randint_100000_999999 7)) ∧
    (generate_otp userBlank 7 refA 0).1.otp_reference_id = some refA ∧
    (generate_otp userBlank 7 refA 0).1.otp_created_at = some 0 ∧
    (generate_otp userBlank 7 refA 0).1.is_active = userBlank.is_active ∧
    (resend_otp_view userBlank leadingZeroCode tokA 5).1.otp_code =
      some leadingZeroCode ∧
    (resend_otp_view userBlank leadingZeroCode tokA 5).1.otp_reference_id =
      some tokA ∧
    (resend_otp_view userBlank leadingZeroCode tokA 5).1.otp_created_at =
      some 5 ∧
    (resend_otp_view userBlank leadingZeroCode tokA 5).1.is_active =
      userBlank.is_active ∧
    (resend_otp_view userBlank leadingZeroCode tokA 5).2 = tokA) :=
  ⟨by decide,
    generate_otp_behavior userBlank userBlank 7 leadingZeroCode refA tokA 0 5
      (by decide)⟩

/-- C7: the invite serializer's own `validate` passes exactly for
superusers — the privilege check is re-performed inside the issuing code
itself — and a non-superuser request is rejected as Forbidden at the
endpoint. -/
theorem admin_invite_superuser_only (u : Actor) (email tok : String)
    (now : ℤ) :
    (admin_invite_serializer u email tok now).isSome = u.is_superuser ∧
    (u.is_superuser = true ∨
      admin_invite_endpoint u email tok now = InviteOutcome.forbidden) := by
  constructor
  · cases hsu : u.is_superuser <;> simp [admin_invite_serializer, hsu]
  · cases hsu : u.is_superuser with
    | true => exact Or.inl rfl
    | false =>
        exact Or.inr (by simp [admin_invite_endpoint, has_permission, hsu])

/-- C3: after `generate`, a verify call with the returned code and
reference within the expiry window succeeds and clears all three OTP
fields (while activating the account) in the same update; a second verify
with the same code and reference then hits the cleared reference field and
is rejected with SessionMismatch, so it never succeeds again. -/
theorem otp_verify_succeeds_exactly_once (u : UserState) (r : ℕ)
    (ref code : String) (now now2 now3 : ℤ)
    (href : ref ≠ pyNoneStr)
    (hcode : code = toString (randint_100000_999999 r))
    (hwin : now2 ≤ now + 600) :
    verify_otp_view (generate_otp u r ref now).1 code ref now2 =
      (VerifyOutcome.verified, activated_user) ∧
    verify_otp_view activated_user code ref now3 =
      (VerifyOutcome.sessionMismatch, activated_user) := by
  constructor
  · have hv : verify_otp (generate_otp u r ref now).1 code ref now2 =
        VerifyOutcome.verified := by
      simp only [verify_otp, generate_otp, strOfRef, hcode]
      simp
      omega
    unfold verify_otp_view
    rw [hv]
    rfl
  · have hv : verify_otp activated_user code ref now3 =
        VerifyOutcome.sessionMismatch := by
      simp only [verify_otp, activated_user, strOfRef]
      simp [Ne.symm href]
    unfold verify_otp_view
    rw [hv]

theorem otp_verify_succeeds_exactly_once_witness :
    refA ≠ pyNoneStr ∧
    codeW = toString (randint_100000_999999 0) ∧
    (600 : ℤ) ≤ 0 + 600 ∧
    (verify_otp_view (generate_otp userBlank 0 refA 0).1 codeW refA 600 =
      (VerifyOutcome.verified, activated_user) ∧
    verify_otp_view activated_user codeW refA 1000000 =
      (VerifyOutcome.sessionMismatch, activated_user)) :=
  ⟨by decide, by decide, by norm_num,
    otp_verify_succeeds_exactly_once userBlank 0 refA codeW 0 600 1000000
      (by decide) (by decide) (by norm_num)⟩

/-- Marking the invitation used by token commutes with the token lookup:
the lookup in the updated table returns the updated row. -/
theorem find?_markUsedByToken (invs : List Invitation) (tok : String) :
    (markUsedByToken tok invs).find? (fun i => i.token == tok) =
      (invs.find? (fun i => i.token == tok)).map
        (fun i => { i with is_used := true }) := by
  induction invs with
  | nil => rfl
  | cons a tl ih =>
      by_cases ha : a.token = tok
      · simp [markUsedByToken, List.find?_cons, ha]
      · simp [markUsedByToken, List.find?_cons, ha, beq_eq_false_iff_ne,
          Ne.symm] at ih ⊢
        simpa [markUsedByToken] using ih

/-- C5: a successful acceptance marks the invitation used, and any later
accept call with the same token — at any instant — is rejected with the
expired/used outcome and leaves the state unchanged, so no second account
is ever created for the invitation. -/
theorem accept_invite_at_most_once (db db' : InviteDB) (tok : String)
    (now : ℤ)
    (h : accept_invite db tok now = (AcceptResult.accepted, db')) :
    (∃ inv', db'.invitations.find? (fun i => i.token == tok) = some inv' ∧
      inv'.is_used = true) ∧
    ∀ now2, accept_invite db' tok now2 =
      (AcceptResult.expiredOrUsed, db') := by
  unfold accept_invite at h
  cases hfind : db.invitations.find? (fun i => i.token == tok) with
  | none =>
      rw [hfind] at h
      exact absurd h (by simp)
  | some inv =>
      rw [hfind] at h
      dsimp only at h
      by_cases hvalid : inv.is_valid now = true
      · rw [if_pos hvalid] at h
        injection h with h1 h2
        subst h2
        constructor
        · refine ⟨{ inv with is_used := true }, ?_, rfl⟩
          show (markUsedByToken tok db.invitations).find?
            (fun i => i.token == tok) = _
          rw [find?_markUsedByToken, hfind]
          rfl
        · intro now2
          unfold accept_invite
          show (match (markUsedByToken tok db.invitations).find?
              (fun i => i.token == tok) with
            | none => _
            | some inv => _) = _
          rw [find?_markUsedByToken, hfind]
          simp [Invitation.is_valid]
      · rw [if_neg hvalid] at h
        exact absurd h (by simp)

theorem accept_invite_at_most_once_witness :
    accept_invite inviteDB1 tokA 999 =
      (AcceptResult.expiredOrUsed, inviteDB1) :=
  (accept_invite_at_most_once inviteDB0 inviteDB1 tokA 0 (by decide)).2 999
